import Mathlib

/-!
Verification development for the bubble_hell gameplay core (src/src/main.rs).

Shallow embedding conventions:
- The game's `f32` scalars are modelled as exact rationals `ℚ` (and as `ℝ` for
  the one system that normalizes a vector, `player_movement`).
- Bevy resources/components become explicit function arguments and results.
- `Rot2::degrees(r * 360.0)` is modelled by its cosine/sine pair `(c, s)`;
  theorems about the spawn circle take the trigonometric identity
  `c ^ 2 + s ^ 2 = 1` as a hypothesis.
- The asset map `BubbleModels` (a `HashMap<BubbleType, Option<Handle<Scene>>>`)
  is modelled by a predicate `modelsLoaded : BubbleType → Bool` capturing
  `bubble_models.0.get(&bubble_type).is_none()` (key presence); the scene
  handle payload plays no role in the claims considered here.
- The Bevy repeating `Timer` is modelled by its elapsed time: `tick` adds the
  frame delta, the timer just_finished when the new elapsed time reaches the
  interval, and a finished repeating timer wraps its elapsed time modulo the
  interval.
-/

/-! ## Constants (src/src/main.rs lines 14-41) -/

def PLAYER_MOVEMENT_SPEED : ℚ := 7
def PLAYER_RADIUS : ℚ := 35 / 100
def PLAYER_OXYGEN_START_SUPPLY : ℚ := 10
def PLAYER_OXYGEN_DECREASE_PER_SECOND : ℚ := 1
def PLATEAU_RADIUS : ℚ := 4
def BUBBLE_RADIUS : ℚ := 6 / 10
def BUBBLE_SPAWN_RADIUS : ℚ := 6
def BUBBLE_HOVER_OFFSET : ℚ := 25 / 100
def BUBBLE_SPAWN_INTERVAL : ℚ := 4 / 10
def BUBBLE_MOVEMENT_SPEED : ℚ := 3 / 10
def BUBBLE_EFFECT_OXYGEN_INCREASE : ℚ := 2
def BUBBLE_EFFECT_OXYGEN_DECREASE_SMALL : ℚ := 1
def BUBBLE_EFFECT_OXYGEN_DECREASE_BIG : ℚ := 4
def BUBBLE_EFFECT_FREEZE_DURATION : ℚ := 8 / 10

/-! ## Data model -/

/-- Bubble type enum (main.rs lines 83-88). -/
inductive BubbleType where
  | Regular
  | Blood
  | Dirt
  | Freeze
deriving DecidableEq, Repr

/-- Model of Bevy `Vec3` translations over exact rationals. -/
structure Vec3 where
  x : ℚ
  y : ℚ
  z : ℚ
deriving DecidableEq, Repr

/-- Model of the `Velocity(Vec2)` component over exact rationals. -/
structure Vec2 where
  x : ℚ
  y : ℚ
deriving DecidableEq, Repr

/-- A live bubble entity: its `Transform` translation, its `Velocity`
component and its `Bubble { bubble_type }` component (main.rs 60-66, 596-616). -/
structure Bubble where
  translation : Vec3
  velocity : Vec2
  bubble_type : BubbleType
deriving DecidableEq, Repr

/-! ## Systems -/

/-- Bevy repeating timer `tick` + `just_finished`: add the delta; the timer
fires when the accumulated elapsed time reaches the interval, in which case
the elapsed time wraps modulo the interval. Returns (new elapsed, fired). -/
def timerTick (elapsed dt interval : ℚ) : ℚ × Bool :=
  let e := elapsed + dt
  if interval ≤ e then (e - interval * (⌊e / interval⌋ : ℚ), true) else (e, false)

/-- Random bubble-type draw `rng.gen_range(0..4)` mapped through the match
at main.rs lines 564-570. -/
def drawn_bubble_type : Nat → BubbleType
  | 0 => BubbleType.Regular
  | 1 => BubbleType.Blood
  | 2 => BubbleType.Dirt
  | 3 => BubbleType.Freeze
  | _ => BubbleType.Regular

/-- System `bubble_spawns` (main.rs lines 548-618). Arguments mirror the
system parameters and the per-frame random draws: `typeDraw` is the
`rng.gen_range(0..4)` result, `(c, s)` the cosine/sine of
`Rot2::degrees(rng.gen::<f32>() * 360.0)`. Returns the new spawn-timer
elapsed time and the spawned bubble, if any. Note that the early returns for
game over and for a missing model happen BEFORE `timer.0.tick(time.delta())`,
so on those paths the timer's elapsed time is left unchanged. -/
def bubble_spawns (is_game_over : Bool) (timerElapsed dt : ℚ) (typeDraw : Nat)
    (c s : ℚ) (modelsLoaded : BubbleType → Bool) (playerTranslation : Vec3) :
    ℚ × Option Bubble :=
  if is_game_over then (timerElapsed, none) else
  let bubble_type := drawn_bubble_type typeDraw
  if !modelsLoaded bubble_type then (timerElapsed, none) else
  let t := timerTick timerElapsed dt BUBBLE_SPAWN_INTERVAL
  if t.2 then
    let spawn_location : Vec3 :=
      ⟨playerTranslation.x + c * BUBBLE_SPAWN_RADIUS,
       playerTranslation.y + BUBBLE_HOVER_OFFSET,
       playerTranslation.z + s * BUBBLE_SPAWN_RADIUS⟩
    let bubble_movement_direction : Vec2 :=
      ⟨(playerTranslation.x - spawn_location.x) * BUBBLE_MOVEMENT_SPEED,
       (playerTranslation.z - spawn_location.z) * BUBBLE_MOVEMENT_SPEED⟩
    (t.1, some ⟨spawn_location, bubble_movement_direction, bubble_type⟩)
  else
    (t.1, none)

/-- System `move_bubbles` (main.rs lines 620-629), acting on one bubble:
`translation.x += velocity.x * dt; translation.z += velocity.y * dt`. -/
def move_bubbles (b : Bubble) (dt : ℚ) : Bubble :=
  { b with translation :=
      ⟨b.translation.x + b.velocity.x * dt,
       b.translation.y,
       b.translation.z + b.velocity.y * dt⟩ }

/-- Bevy `BoundingSphere.intersects`: squared center distance at most the
squared sum of radii (main.rs lines 669-672). -/
def bounding_sphere_intersects (ca : Vec3) (ra : ℚ) (cb : Vec3) (rb : ℚ) : Bool :=
  decide ((ca.x - cb.x) ^ 2 + (ca.y - cb.y) ^ 2 + (ca.z - cb.z) ^ 2 ≤ (ra + rb) ^ 2)

/-- System `check_collisions` (main.rs lines 661-695): every bubble whose
bounding sphere intersects the player's is despawned and a `BubbleHitEvent`
carrying its type is sent, in query order. Returns (surviving bubbles,
hit events). -/
def check_collisions (playerTranslation : Vec3) (bubbles : List Bubble) :
    List Bubble × List BubbleType :=
  (bubbles.filter (fun b =>
     !bounding_sphere_intersects b.translation BUBBLE_RADIUS playerTranslation PLAYER_RADIUS),
   (bubbles.filter (fun b =>
     bounding_sphere_intersects b.translation BUBBLE_RADIUS playerTranslation PLAYER_RADIUS)).map
     (fun b => b.bubble_type))

/-- Result of one run of `reduce_oxygen_level`: the new oxygen level, the new
game-over flag, and whether a `GameOverEvent` was sent this run. -/
structure OxygenTickResult where
  oxygen : ℚ
  is_game_over : Bool
  game_over_sent : Bool
deriving DecidableEq, Repr

/-- System `reduce_oxygen_level` (main.rs lines 496-514): if the game-over
flag is set, do nothing; else if oxygen ≤ 0, send `GameOverEvent` and set the
flag; else deplete oxygen by `dt * PLAYER_OXYGEN_DECREASE_PER_SECOND`. -/
def reduce_oxygen_level (oxygen dt : ℚ) (is_game_over : Bool) : OxygenTickResult :=
  if is_game_over then ⟨oxygen, is_game_over, false⟩
  else if oxygen ≤ 0 then ⟨oxygen, true, true⟩
  else ⟨oxygen - dt * PLAYER_OXYGEN_DECREASE_PER_SECOND, is_game_over, false⟩

/-- System `enforce_plateau_limits` (main.rs lines 463-480): when the player's
horizontal position is outside the plateau radius, subtract an extra
`dt * PLAYER_OXYGEN_DECREASE_PER_SECOND` from the oxygen level. This system
does NOT consult the game-over flag. -/
def enforce_plateau_limits (playerTranslation : Vec3) (oxygen dt : ℚ) : ℚ :=
  if playerTranslation.x ^ 2 + playerTranslation.z ^ 2 > PLATEAU_RADIUS ^ 2 then
    oxygen - dt * PLAYER_OXYGEN_DECREASE_PER_SECOND
  else oxygen

/-- One `BubbleHitEvent` handled inside the loop of `handle_bubble_hit`
(main.rs lines 636-652), acting on the pair (oxygen, freeze time_remaining). -/
def bubble_hit_step (st : ℚ × ℚ) (bubble_type : BubbleType) : ℚ × ℚ :=
  match bubble_type with
  | BubbleType.Regular => (st.1 + BUBBLE_EFFECT_OXYGEN_INCREASE, st.2)
  | BubbleType.Dirt => (st.1 - BUBBLE_EFFECT_OXYGEN_DECREASE_SMALL, st.2)
  | BubbleType.Freeze =>
      (st.1 + BUBBLE_EFFECT_OXYGEN_INCREASE * (1 / 2), BUBBLE_EFFECT_FREEZE_DURATION)
  | BubbleType.Blood => (st.1 - BUBBLE_EFFECT_OXYGEN_DECREASE_BIG, st.2)

/-- System `handle_bubble_hit` (main.rs lines 631-653): fold the queued
`BubbleHitEvent`s, in order, over (oxygen, freeze time_remaining). -/
def handle_bubble_hit (oxygen freeze_time_remaining : ℚ) (events : List BubbleType) : ℚ × ℚ :=
  events.foldl bubble_hit_step (oxygen, freeze_time_remaining)

/-- System `run_bubble_freeze_timer` (main.rs lines 655-659): subtract `dt`
from `time_remaining` when it is positive; there is no clamp at 0. -/
def run_bubble_freeze_timer (time_remaining dt : ℚ) : ℚ :=
  if time_remaining > 0 then time_remaining - dt else time_remaining

/-- Modelled from the spec: the per-type oxygen-delta column of the
BubbleType → Effect table in §3 of the specification (Regular +2.0,
Dirt −1.0, Blood −4.0, Freeze +1.0), to be compared with the deltas the code
applies in `handle_bubble_hit`. -/
def specOxygenDelta : BubbleType → ℚ
  | BubbleType.Regular => 2
  | BubbleType.Dirt => -1
  | BubbleType.Blood => -4
  | BubbleType.Freeze => 1

/-! ## Tick sequences for the oxygen state machine

`runOxy` runs `reduce_oxygen_level` over a sequence of ticks. Bevy schedules
the other oxygen writers (`handle_bubble_hit`, `enforce_plateau_limits`) in
the same unordered `Update` set, so each tick carries an arbitrary external
oxygen delta `δ` applied before `reduce_oxygen_level` observes the level;
quantifying over all delta sequences covers every interleaving of those
writers. Each output entry records (oxygen observed by the system, whether a
`GameOverEvent` was sent on that tick). -/

def runOxy : ℚ → Bool → List (ℚ × ℚ) → List (ℚ × Bool)
  | _, _, [] => []
  | oxygen, flag, (δ, dt) :: rest =>
      let observed := oxygen + δ
      let r := reduce_oxygen_level observed dt flag
      (observed, r.game_over_sent) :: runOxy r.oxygen r.is_game_over rest

/-! ## Composite per-tick step

One frame of the game: the `FixedUpdate` chain
`bubble_spawns → move_bubbles → player_movement → check_collisions`
(main.rs lines 108-117) followed by the `Update` systems relevant to the
gameplay state (`reduce_oxygen_level`, `handle_bubble_hit`,
`run_bubble_freeze_timer`, `enforce_plateau_limits`; main.rs lines 118-130 —
that set is unordered in Bevy, the listed order is used here; the claims
proved below do not depend on it). Player movement computes over `f32`
square roots, so the composite tick takes the would-be horizontal
displacement as an input and applies the faithful movement guard
(main.rs line 524: input blocked after game over or while frozen); the exact
displacement arithmetic is modelled separately by `player_movement` below. -/

/-- Composite gameplay state: the resources and singleton components of
main.rs (OxygenLevel, IsGameOver, BubbleFreezeEffect, BubbleSpawnTimer,
the player Transform, and the live bubble entities). -/
structure GameState where
  oxygen : ℚ
  is_game_over : Bool
  freeze_time_remaining : ℚ
  timerElapsed : ℚ
  playerTranslation : Vec3
  bubbles : List Bubble

/-- Per-tick environment inputs: frame delta, the two random draws feeding
`bubble_spawns`, the asset-availability predicate, and the horizontal
displacement the movement keys would produce this frame. -/
structure TickInput where
  dt : ℚ
  typeDraw : Nat
  c : ℚ
  s : ℚ
  modelsLoaded : BubbleType → Bool
  moveX : ℚ
  moveZ : ℚ

/-- Observable per-tick outputs: the bubble spawned this tick (if any) and
whether a `GameOverEvent` was sent this tick. -/
structure TickJournal where
  spawned : Option Bubble
  game_over_sent : Bool

/-- One full frame of the gameplay systems. -/
def tick (st : GameState) (inp : TickInput) : GameState × TickJournal :=
  let sp := bubble_spawns st.is_game_over st.timerElapsed inp.dt inp.typeDraw
    inp.c inp.s inp.modelsLoaded st.playerTranslation
  let bubbles1 := match sp.2 with
    | some b => st.bubbles ++ [b]
    | none => st.bubbles
  let bubbles2 := bubbles1.map (fun b => move_bubbles b inp.dt)
  let pos := if st.is_game_over || decide (st.freeze_time_remaining > 0) then
      st.playerTranslation
    else
      ⟨st.playerTranslation.x + inp.moveX, st.playerTranslation.y,
       st.playerTranslation.z + inp.moveZ⟩
  let col := check_collisions pos bubbles2
  let r := reduce_oxygen_level st.oxygen inp.dt st.is_game_over
  let hb := handle_bubble_hit r.oxygen st.freeze_time_remaining col.2
  let freeze2 := run_bubble_freeze_timer hb.2 inp.dt
  let oxy3 := enforce_plateau_limits pos hb.1 inp.dt
  (⟨oxy3, r.is_game_over, freeze2, sp.1, pos, col.1⟩, ⟨sp.2, r.game_over_sent⟩)

/-- Run the composite tick over a list of per-tick inputs, collecting the
per-tick journals. -/
def runTicks : GameState → List TickInput → GameState × List TickJournal
  | st, [] => (st, [])
  | st, inp :: rest =>
      let t := tick st inp
      let r2 := runTicks t.1 rest
      (r2.1, t.2 :: r2.2)

/-! ## Player movement over ℝ

`player_movement` (main.rs lines 516-546) normalizes the summed key vector,
which involves a square root, so this one system is embedded over `ℝ`. -/

/-- Vec2 made from the four movement keys: E adds (0, −1), D adds (0, 1),
S adds (−1, 0), F adds (1, 0) (main.rs lines 528-540). -/
noncomputable def movement_input (keyE keyD keyS keyF : Bool) : ℝ × ℝ :=
  ((if keyS then (-1 : ℝ) else 0) + (if keyF then (1 : ℝ) else 0),
   (if keyE then (-1 : ℝ) else 0) + (if keyD then (1 : ℝ) else 0))

/-- Bevy `Vec2::normalize`: divide by the Euclidean length. -/
noncomputable def vec2_normalize (v : ℝ × ℝ) : ℝ × ℝ :=
  (v.1 / Real.sqrt (v.1 ^ 2 + v.2 ^ 2), v.2 / Real.sqrt (v.1 ^ 2 + v.2 ^ 2))

/-- System `player_movement` (main.rs lines 516-546): input is blocked after
game over or while the freeze timer is positive; otherwise, when the summed
key vector is nonzero, the player translation moves by
`dt * PLAYER_MOVEMENT_SPEED * normalize(movement)` applied to (x, z);
y is never written. The translation is a triple (x, y, z). -/
noncomputable def player_movement (is_game_over : Bool) (freeze_time_remaining : ℝ)
    (keyE keyD keyS keyF : Bool) (translation : ℝ × ℝ × ℝ) (dt : ℝ) : ℝ × ℝ × ℝ :=
  if is_game_over = true ∨ freeze_time_remaining > 0 then translation
  else
    let movement := movement_input keyE keyD keyS keyF
    if movement.1 ^ 2 + movement.2 ^ 2 > 0 then
      let m := vec2_normalize movement
      (translation.1 + dt * (PLAYER_MOVEMENT_SPEED : ℝ) * m.1,
       translation.2.1,
       translation.2.2 + dt * (PLAYER_MOVEMENT_SPEED : ℝ) * m.2)
    else translation

/-! ## Helper lemmas -/

theorem reduce_oxygen_level_gameover (oxygen dt : ℚ) :
    reduce_oxygen_level oxygen dt true = ⟨oxygen, true, false⟩ := by
  simp [reduce_oxygen_level]

theorem reduce_oxygen_level_alive_low (oxygen dt : ℚ) (h : oxygen ≤ 0) :
    reduce_oxygen_level oxygen dt false = ⟨oxygen, true, true⟩ := by
  simp [reduce_oxygen_level, h]

theorem reduce_oxygen_level_alive_high (oxygen dt : ℚ) (h : ¬oxygen ≤ 0) :
    reduce_oxygen_level oxygen dt false =
      ⟨oxygen - dt * PLAYER_OXYGEN_DECREASE_PER_SECOND, false, false⟩ := by
  simp [reduce_oxygen_level, h]

/-- The oxygen component of `handle_bubble_hit` is the initial level plus the
sum of the per-type deltas of the queued events. -/
theorem handle_bubble_hit_oxygen (events : List BubbleType) :
    ∀ oxygen freeze_time_remaining : ℚ,
      (handle_bubble_hit oxygen freeze_time_remaining events).1 =
        oxygen + (events.map specOxygenDelta).sum := by
  induction events with
  | nil => intro oxygen freeze; simp [handle_bubble_hit]
  | cons t rest ih =>
      intro oxygen freeze
      have step : handle_bubble_hit oxygen freeze (t :: rest) =
          handle_bubble_hit (bubble_hit_step (oxygen, freeze) t).1
            (bubble_hit_step (oxygen, freeze) t).2 rest := by
        simp [handle_bubble_hit]
      rw [step, ih]
      cases t <;>
        simp [bubble_hit_step, specOxygenDelta, BUBBLE_EFFECT_OXYGEN_INCREASE,
          BUBBLE_EFFECT_OXYGEN_DECREASE_SMALL, BUBBLE_EFFECT_OXYGEN_DECREASE_BIG] <;>
        ring

/-! ## Claims -/

/-- C2: for every processed bubble-hit event, the oxygen delta applied equals
the static per-type table (Regular +2.0, Dirt −1.0, Blood −4.0, Freeze +1.0,
half of Regular), the delta is purely additive with no upper clamp (oxygen
can exceed the starting supply), and only a Freeze hit touches the freeze
timer. -/
theorem bubble_hit_effect_matches_table (oxygen freeze_time_remaining : ℚ)
    (events : List BubbleType) (t : BubbleType) :
    handle_bubble_hit oxygen freeze_time_remaining (events ++ [t]) =
      ((handle_bubble_hit oxygen freeze_time_remaining events).1 + specOxygenDelta t,
       if t = BubbleType.Freeze then BUBBLE_EFFECT_FREEZE_DURATION
       else (handle_bubble_hit oxygen freeze_time_remaining events).2) ∧
    specOxygenDelta BubbleType.Regular = BUBBLE_EFFECT_OXYGEN_INCREASE ∧
    specOxygenDelta BubbleType.Dirt = -BUBBLE_EFFECT_OXYGEN_DECREASE_SMALL ∧
    specOxygenDelta BubbleType.Blood = -BUBBLE_EFFECT_OXYGEN_DECREASE_BIG ∧
    specOxygenDelta BubbleType.Freeze = BUBBLE_EFFECT_OXYGEN_INCREASE * (1 / 2) ∧
    (handle_bubble_hit PLAYER_OXYGEN_START_SUPPLY 0 [BubbleType.Regular]).1 >
      PLAYER_OXYGEN_START_SUPPLY := by
  refine ⟨?_, by norm_num [specOxygenDelta, BUBBLE_EFFECT_OXYGEN_INCREASE],
    by norm_num [specOxygenDelta, BUBBLE_EFFECT_OXYGEN_DECREASE_SMALL],
    by norm_num [specOxygenDelta, BUBBLE_EFFECT_OXYGEN_DECREASE_BIG],
    by norm_num [specOxygenDelta, BUBBLE_EFFECT_OXYGEN_INCREASE],
    by norm_num [handle_bubble_hit, bubble_hit_step, BUBBLE_EFFECT_OXYGEN_INCREASE,
      PLAYER_OXYGEN_START_SUPPLY]⟩
  rw [handle_bubble_hit, List.foldl_append]
  cases t <;>
    simp [handle_bubble_hit, bubble_hit_step, specOxygenDelta,
      BUBBLE_EFFECT_OXYGEN_INCREASE, BUBBLE_EFFECT_OXYGEN_DECREASE_SMALL,
      BUBBLE_EFFECT_OXYGEN_DECREASE_BIG] <;>
    ring

/-- C3: a Freeze hit sets `FreezeState.time_remaining` to the fixed constant
0.8 s regardless of its prior value (overwrite, not addition): a hit arriving
while `time_remaining = 0.3` yields 0.8, not 1.1. -/
theorem freeze_hit_overwrites_timer (oxygen freeze_time_remaining : ℚ) :
    (handle_bubble_hit oxygen freeze_time_remaining [BubbleType.Freeze]).2 =
      BUBBLE_EFFECT_FREEZE_DURATION ∧
    (handle_bubble_hit oxygen (3 / 10) [BubbleType.Freeze]).2 = 8 / 10 ∧
    (handle_bubble_hit oxygen (3 / 10) [BubbleType.Freeze]).2 ≠ 3 / 10 + 8 / 10 := by
  norm_num [handle_bubble_hit, bubble_hit_step, BUBBLE_EFFECT_FREEZE_DURATION]

/-- C7 counterexample: starting from a fresh Freeze hit
(`time_remaining = BUBBLE_EFFECT_FREEZE_DURATION = 0.8`), two ticks of 0.5 s
each leave the timer at −0.2: the value is NOT clamped at 0 and a reachable
state is negative, contradicting the claimed non-negativity invariant. -/
theorem freeze_timer_goes_negative :
    run_bubble_freeze_timer
      (run_bubble_freeze_timer BUBBLE_EFFECT_FREEZE_DURATION (1 / 2)) (1 / 2) < 0 := by
  norm_num [run_bubble_freeze_timer, BUBBLE_EFFECT_FREEZE_DURATION]

/-- C7 amended: each tick `time_remaining` is decremented by the elapsed time
only while positive, with NO clamp at 0: after a decrementing tick of length
`dt` it is bounded below by `−dt` (so it can become negative, by at most one
frame's delta), and once non-positive it is never decremented again. -/
theorem freeze_timer_decrement_unclamped (time_remaining dt : ℚ) :
    (0 < time_remaining →
      run_bubble_freeze_timer time_remaining dt = time_remaining - dt ∧
      -dt ≤ run_bubble_freeze_timer time_remaining dt) ∧
    (time_remaining ≤ 0 → run_bubble_freeze_timer time_remaining dt = time_remaining) := by
  unfold run_bubble_freeze_timer
  constructor
  · intro ht
    rw [if_pos ht]
    exact ⟨rfl, by linarith⟩
  · intro ht
    rw [if_neg (by linarith)]

/-- C7 amended witness: at `time_remaining = 0.8`, `dt = 0.5`, the tick
decrements to 0.3 and stays at least −0.5. -/
theorem freeze_timer_decrement_unclamped_witness :
    (0 : ℚ) < 8 / 10 ∧
    run_bubble_freeze_timer (8 / 10) (1 / 2) = 8 / 10 - 1 / 2 := by
  refine ⟨by norm_num, ?_⟩
  exact ((freeze_timer_decrement_unclamped (8 / 10) (1 / 2)).1 (by norm_num)).1

/-- C8 counterexample: a depletion tick from the starting supply followed by
one Blood hit leaves the stored oxygen level at −3.5, strictly below the
game-over threshold 0: there is no lower clamp. -/
theorem oxygen_goes_below_threshold :
    (handle_bubble_hit
      (reduce_oxygen_level PLAYER_OXYGEN_START_SUPPLY (19 / 2) false).oxygen 0
      [BubbleType.Blood]).1 < 0 := by
  norm_num [handle_bubble_hit, bubble_hit_step, reduce_oxygen_level,
    PLAYER_OXYGEN_START_SUPPLY, PLAYER_OXYGEN_DECREASE_PER_SECOND,
    BUBBLE_EFFECT_OXYGEN_DECREASE_BIG]

/-- C8 amended: the stored oxygen level is NOT clamped at the game-over
threshold: a depletion tick while alive, an out-of-bounds penalty tick, and a
Blood hit each subtract their full delta from the stored level, so oxygen can
end strictly below the threshold. -/
theorem oxygen_deltas_unclamped (oxygen dt freeze_time_remaining : ℚ) (p : Vec3)
    (hox : 0 < oxygen) (hout : p.x ^ 2 + p.z ^ 2 > PLATEAU_RADIUS ^ 2) :
    (reduce_oxygen_level oxygen dt false).oxygen =
      oxygen - dt * PLAYER_OXYGEN_DECREASE_PER_SECOND ∧
    enforce_plateau_limits p oxygen dt =
      oxygen - dt * PLAYER_OXYGEN_DECREASE_PER_SECOND ∧
    (handle_bubble_hit oxygen freeze_time_remaining [BubbleType.Blood]).1 =
      oxygen - BUBBLE_EFFECT_OXYGEN_DECREASE_BIG := by
  refine ⟨?_, ?_, ?_⟩
  · rw [reduce_oxygen_level_alive_high oxygen dt (by linarith)]
  · rw [enforce_plateau_limits, if_pos hout]
  · simp [handle_bubble_hit, bubble_hit_step]

/-- C8 amended witness: oxygen 2, player at (5, 0, 0) (outside the plateau),
dt 1: each operation subtracts its full delta; the Blood hit result 2 − 4 is
negative. -/
theorem oxygen_deltas_unclamped_witness :
    (0 : ℚ) < 2 ∧ ((5 : ℚ) ^ 2 + (0 : ℚ) ^ 2 > PLATEAU_RADIUS ^ 2) ∧
    (handle_bubble_hit 2 0 [BubbleType.Blood]).1 = 2 - BUBBLE_EFFECT_OXYGEN_DECREASE_BIG := by
  refine ⟨by norm_num, by norm_num [PLATEAU_RADIUS], ?_⟩
  exact (oxygen_deltas_unclamped 2 1 0 ⟨5, 0, 0⟩ (by norm_num)
    (by norm_num [PLATEAU_RADIUS])).2.2

/-- C9: for any multiset of bubble-hit events processed in one tick, the
final oxygen value after `handle_bubble_hit` runs is the same for every
ordering of those events. -/
theorem hit_order_does_not_affect_oxygen (oxygen freeze_time_remaining : ℚ)
    (events events2 : List BubbleType) (h : events.Perm events2) :
    (handle_bubble_hit oxygen freeze_time_remaining events).1 =
      (handle_bubble_hit oxygen freeze_time_remaining events2).1 := by
  rw [handle_bubble_hit_oxygen events, handle_bubble_hit_oxygen events2,
    (h.map specOxygenDelta).sum_eq]

/-- C9 witness: the queues [Regular, Blood] and [Blood, Regular] are
permutations of each other and give the same final oxygen. -/
theorem hit_order_does_not_affect_oxygen_witness :
    ([BubbleType.Regular, BubbleType.Blood].Perm
      [BubbleType.Blood, BubbleType.Regular]) ∧
    (handle_bubble_hit 10 0 [BubbleType.Regular, BubbleType.Blood]).1 =
      (handle_bubble_hit 10 0 [BubbleType.Blood, BubbleType.Regular]).1 := by
  refine ⟨List.Perm.swap BubbleType.Blood BubbleType.Regular [], ?_⟩
  exact hit_order_does_not_affect_oxygen 10 0 _ _
    (List.Perm.swap BubbleType.Blood BubbleType.Regular [])

/-- C4 counterexample: with the Freeze model missing, at spawn-timer elapsed
0.3 and dt 0.2 (which would have made the 0.4 s timer fire and wrap to 0.1),
`bubble_spawns` skips the spawn but returns the timer elapsed UNCHANGED at
0.3: the early return happens before `timer.0.tick(time.delta())`, so the
timer does not advance, contradicting the claim that the spawn timer still
advances and resets as if it had fired. -/
theorem missing_model_leaves_timer_unticked :
    bubble_spawns false (3 / 10) (2 / 10) 3 1 0
        (fun t => decide (t ≠ BubbleType.Freeze)) ⟨0, 0, 0⟩ = (3 / 10, none) ∧
    timerTick (3 / 10) (2 / 10) BUBBLE_SPAWN_INTERVAL = (1 / 10, true) ∧
    (3 / 10 : ℚ) ≠ 1 / 10 := by
  refine ⟨?_, ?_, by norm_num⟩
  · norm_num [bubble_spawns, drawn_bubble_type]
  · norm_num [timerTick, BUBBLE_SPAWN_INTERVAL]

/-- C4 amended: when the model asset for the randomly drawn bubble type is
not yet available, `bubble_spawns` skips spawning that tick non-fatally (no
crash, no fallback type) — but the spawn timer is NOT ticked on that frame:
its elapsed time is returned unchanged (the frame's delta is dropped), so it
neither advances nor resets. -/
theorem missing_model_skips_spawn (timerElapsed dt : ℚ) (typeDraw : Nat) (c s : ℚ)
    (modelsLoaded : BubbleType → Bool) (playerTranslation : Vec3)
    (hm : modelsLoaded (drawn_bubble_type typeDraw) = false) :
    bubble_spawns false timerElapsed dt typeDraw c s modelsLoaded playerTranslation =
      (timerElapsed, none) := by
  simp [bubble_spawns, hm]

/-- C4 amended witness: the concrete skip of the counterexample state follows
from the amended theorem. -/
theorem missing_model_skips_spawn_witness :
    ((fun t => decide (t ≠ BubbleType.Freeze)) (drawn_bubble_type 3) = false) ∧
    bubble_spawns false (3 / 10) (2 / 10) 3 1 0
        (fun t => decide (t ≠ BubbleType.Freeze)) ⟨0, 0, 0⟩ = (3 / 10, none) := by
  refine ⟨by decide, ?_⟩
  exact missing_model_skips_spawn (3 / 10) (2 / 10) 3 1 0 _ ⟨0, 0, 0⟩ (by decide)

/-- C6: every spawned bubble's horizontal (x, z) position lies exactly on the
circle of radius `BUBBLE_SPAWN_RADIUS` centered at the player's (x, z)
position at spawn time, its y coordinate is the player's y plus the hover
offset, its velocity is (player.xz − spawn.xz) times `BUBBLE_MOVEMENT_SPEED`,
and `move_bubbles` never changes that velocity afterwards. -/
theorem spawned_bubble_geometry (timerElapsed dt : ℚ) (typeDraw : Nat) (c s : ℚ)
    (modelsLoaded : BubbleType → Bool) (playerTranslation : Vec3) (b : Bubble)
    (hcs : c ^ 2 + s ^ 2 = 1)
    (hb : (bubble_spawns false timerElapsed dt typeDraw c s modelsLoaded
      playerTranslation).2 = some b) :
    (b.translation.x - playerTranslation.x) ^ 2 +
        (b.translation.z - playerTranslation.z) ^ 2 = BUBBLE_SPAWN_RADIUS ^ 2 ∧
    b.translation.y = playerTranslation.y + BUBBLE_HOVER_OFFSET ∧
    b.velocity = ⟨(playerTranslation.x - b.translation.x) * BUBBLE_MOVEMENT_SPEED,
                  (playerTranslation.z - b.translation.z) * BUBBLE_MOVEMENT_SPEED⟩ ∧
    ∀ dt2 : ℚ, (move_bubbles b dt2).velocity = b.velocity := by
  unfold bubble_spawns at hb
  by_cases hm : (!modelsLoaded (drawn_bubble_type typeDraw)) = true
  · simp [hm] at hb
  · rw [Bool.not_eq_true] at hm
    by_cases hf : (timerTick timerElapsed dt BUBBLE_SPAWN_INTERVAL).2 = true
    · simp only [Bool.false_eq_true, if_false, hm, Bool.not_false, hf, if_true] at hb
      obtain rfl := Option.some_injective _ hb.symm
      refine ⟨?_, rfl, rfl, fun dt2 => rfl⟩
      simp only
      linear_combination BUBBLE_SPAWN_RADIUS ^ 2 * hcs
    · simp [hm, hf] at hb

/-- C6 witness: with flag false, all models loaded, draw 0, rotation
(cos, sin) = (3/5, 4/5) and a firing timer, the spawned bubble at player
position (1, 2, 3) satisfies all four geometry properties at dt2 = 1. -/
theorem spawned_bubble_geometry_witness :
    ((3 / 5 : ℚ) ^ 2 + (4 / 5 : ℚ) ^ 2 = 1) ∧
    (bubble_spawns false 0 (2 / 5) 0 (3 / 5) (4 / 5) (fun _ => true) ⟨1, 2, 3⟩).2 =
      some ⟨⟨23 / 5, 9 / 4, 39 / 5⟩, ⟨-27 / 25, -36 / 25⟩, BubbleType.Regular⟩ ∧
    ((23 / 5 : ℚ) - 1) ^ 2 + ((39 / 5 : ℚ) - 3) ^ 2 = BUBBLE_SPAWN_RADIUS ^ 2 := by
  have hb : (bubble_spawns false 0 (2 / 5) 0 (3 / 5) (4 / 5) (fun _ => true) ⟨1, 2, 3⟩).2 =
      some ⟨⟨23 / 5, 9 / 4, 39 / 5⟩, ⟨-27 / 25, -36 / 25⟩, BubbleType.Regular⟩ := by
    norm_num [bubble_spawns, drawn_bubble_type, timerTick, BUBBLE_SPAWN_INTERVAL,
      BUBBLE_SPAWN_RADIUS, BUBBLE_HOVER_OFFSET, BUBBLE_MOVEMENT_SPEED]
  refine ⟨by norm_num, hb, ?_⟩
  exact (spawned_bubble_geometry 0 (2 / 5) 0 (3 / 5) (4 / 5) (fun _ => true)
    ⟨1, 2, 3⟩ _ (by norm_num) hb).1

/-- Once the game-over flag is true, `reduce_oxygen_level` never sends a
`GameOverEvent` again on any later tick of the sequence. -/
theorem runOxy_flag_true_no_emission (inps : List (ℚ × ℚ)) :
    ∀ oxygen : ℚ, ∀ p ∈ runOxy oxygen true inps, p.2 = false := by
  induction inps with
  | nil => intro oxygen p hp; simp [runOxy] at hp
  | cons hd tl ih =>
      intro oxygen p hp
      obtain ⟨δ, dt⟩ := hd
      rw [runOxy] at hp
      simp only [reduce_oxygen_level_gameover, List.mem_cons] at hp
      rcases hp with hp | hp
      · rw [hp]
      · exact ih _ p hp

/-- C1: along any tick sequence starting with the game-over flag false, the
`GameOverEvent` is sent on tick `i` exactly when the oxygen level observed by
`reduce_oxygen_level` on tick `i` is ≤ 0 and it was > 0 on every earlier
tick — i.e. the event fires exactly once, on the first tick with oxygen ≤ 0,
and on no later tick, no matter how many later ticks have oxygen ≤ 0. Ticks
are indexed with `getD`; the default entry `(1, false)` (used only out of
range) satisfies neither side of the equivalence. -/
theorem game_over_event_fires_exactly_once (o0 : ℚ) (inps : List (ℚ × ℚ)) (i : ℕ) :
    ((runOxy o0 false inps).getD i (1, false)).2 = true ↔
      ((runOxy o0 false inps).getD i (1, false)).1 ≤ 0 ∧
      ∀ p ∈ (runOxy o0 false inps).take i, 0 < p.1 := by
  induction inps generalizing o0 i with
  | nil => simp [runOxy]
  | cons hd tl ih =>
      obtain ⟨δ, dt⟩ := hd
      by_cases h : o0 + δ ≤ 0
      · have hrw : runOxy o0 false ((δ, dt) :: tl) =
            (o0 + δ, true) :: runOxy (o0 + δ) true tl := by
          simp [runOxy, reduce_oxygen_level_alive_low _ dt h]
        match i with
        | 0 => rw [hrw]; simpa using h
        | j + 1 =>
            rw [hrw]
            simp only [List.getD_cons_succ, List.take_succ_cons]
            have hfalse : ((runOxy (o0 + δ) true tl).getD j (1, false)).2 = false := by
              by_cases hj : j < (runOxy (o0 + δ) true tl).length
              · rw [List.getD_eq_getElem _ _ hj]
                exact runOxy_flag_true_no_emission tl (o0 + δ) _ (List.getElem_mem hj)
              · rw [List.getD_eq_default _ _ (le_of_not_lt hj)]
            rw [hfalse]
            constructor
            · intro hemit; exact absurd hemit (by simp)
            · rintro ⟨-, hall⟩
              exact absurd (hall (o0 + δ, true) (List.mem_cons_self _ _))
                (by simpa using h)
      · have hpos : 0 < o0 + δ := not_le.mp h
        have hrw : runOxy o0 false ((δ, dt) :: tl) =
            (o0 + δ, false) ::
              runOxy (o0 + δ - dt * PLAYER_OXYGEN_DECREASE_PER_SECOND) false tl := by
          simp [runOxy, reduce_oxygen_level_alive_high _ dt h]
        match i with
        | 0 => rw [hrw]; simpa using h
        | j + 1 =>
            rw [hrw]
            simp only [List.getD_cons_succ, List.take_succ_cons]
            rw [ih]
            constructor
            · rintro ⟨h1, h2⟩
              refine ⟨h1, ?_⟩
              intro p hp
              rcases List.mem_cons.mp hp with hp | hp
              · rw [hp]; exact hpos
              · exact h2 p hp
            · rintro ⟨h1, h2⟩
              exact ⟨h1, fun p hp => h2 p (List.mem_cons_of_mem _ hp)⟩

/-- C1 witness: the emission pattern of the trace with starting oxygen 1 and
ticks of length 2, 5 and 1 s (no external deltas) is [false, true, false]:
the event fires on tick 1 — the first tick observing oxygen ≤ 0 — and on no
later tick. -/
theorem game_over_event_fires_exactly_once_witness :
    ((runOxy 1 false [(0, 2), (0, 5), (0, 1)]).getD 1 (1, false)).2 = true ∧
    ((runOxy 1 false [(0, 2), (0, 5), (0, 1)]).getD 2 (1, false)).2 = false := by
  constructor
  · exact (game_over_event_fires_exactly_once 1 [(0, 2), (0, 5), (0, 1)] 1).mpr
      (by norm_num [runOxy, reduce_oxygen_level, PLAYER_OXYGEN_DECREASE_PER_SECOND])
  · by_contra hemit
    rw [Bool.not_eq_false] at hemit
    have := (game_over_event_fires_exactly_once 1 [(0, 2), (0, 5), (0, 1)] 2).mp hemit
    revert this
    norm_num [runOxy, reduce_oxygen_level, PLAYER_OXYGEN_DECREASE_PER_SECOND]

/-- One tick from a game-over state keeps the flag set, spawns nothing and
sends no further `GameOverEvent`. -/
theorem tick_gameover_latched (st : GameState) (inp : TickInput)
    (h : st.is_game_over = true) :
    (tick st inp).1.is_game_over = true ∧ (tick st inp).2.spawned = none ∧
    (tick st inp).2.game_over_sent = false := by
  simp [tick, bubble_spawns, h, reduce_oxygen_level_gameover]

/-- C5 counterexample: with the game-over flag already true and the player
parked at (5, 0, 0) — outside the plateau radius 4 — a 1 s tick still lowers
the oxygen level from 10 to 9, because `enforce_plateau_limits` does not
consult the game-over flag. This refutes the part of the claim stating that
after game over no system decreases the oxygen level. -/
theorem oxygen_decreases_after_gameover :
    (⟨10, true, 0, 0, ⟨5, 0, 0⟩, []⟩ : GameState).is_game_over = true ∧
    (tick ⟨10, true, 0, 0, ⟨5, 0, 0⟩, []⟩
      ⟨1, 0, 1, 0, fun _ => true, 0, 0⟩).1.oxygen = 9 ∧ (9 : ℚ) < 10 := by
    refine ⟨rfl, ?_, by norm_num⟩
    norm_num [tick, bubble_spawns, check_collisions, reduce_oxygen_level,
      handle_bubble_hit, run_bubble_freeze_timer, enforce_plateau_limits,
      PLATEAU_RADIUS, PLAYER_OXYGEN_DECREASE_PER_SECOND]

/-- C5 amended: once the game-over flag is true it never returns to false,
and for the rest of the session no tick spawns a bubble, sends another
`GameOverEvent`, or depletes oxygen through `reduce_oxygen_level` (which
leaves the level untouched once the flag is set); oxygen may however still
decrease through the unguarded out-of-bounds penalty of
`enforce_plateau_limits` and through bubble-hit effects. -/
theorem gameover_flag_latched (st : GameState) (l : List TickInput)
    (h : st.is_game_over = true) :
    (runTicks st l).1.is_game_over = true ∧
    (∀ j ∈ (runTicks st l).2, j.spawned = none ∧ j.game_over_sent = false) ∧
    (∀ oxygen dt : ℚ, (reduce_oxygen_level oxygen dt true).oxygen = oxygen) := by
  refine ⟨?_, ?_, fun oxygen dt => by rw [reduce_oxygen_level_gameover]⟩
  · induction l generalizing st with
    | nil => simpa [runTicks] using h
    | cons inp rest ih =>
        rw [runTicks]
        exact ih _ (tick_gameover_latched st inp h).1
  · induction l generalizing st with
    | nil => simp [runTicks]
    | cons inp rest ih =>
        intro j hj
        rw [runTicks] at hj
        rcases List.mem_cons.mp hj with hj | hj
        · rw [hj]
          exact ⟨(tick_gameover_latched st inp h).2.1,
            (tick_gameover_latched st inp h).2.2⟩
        · exact ih _ (tick_gameover_latched st inp h).1 j hj

/-- C5 amended witness: two ticks from a concrete game-over state keep the
flag true and spawn nothing. -/
theorem gameover_flag_latched_witness :
    (⟨10, true, 0, 0, ⟨0, 0, 0⟩, []⟩ : GameState).is_game_over = true ∧
    (runTicks ⟨10, true, 0, 0, ⟨0, 0, 0⟩, []⟩
      [⟨1, 0, 1, 0, fun _ => true, 0, 0⟩,
       ⟨1, 1, 1, 0, fun _ => true, 2, 3⟩]).1.is_game_over = true := by
  exact ⟨rfl, (gameover_flag_latched ⟨10, true, 0, 0, ⟨0, 0, 0⟩, []⟩
    [⟨1, 0, 1, 0, fun _ => true, 0, 0⟩, ⟨1, 1, 1, 0, fun _ => true, 2, 3⟩] rfl).1⟩

/-- C10: when the player is neither frozen nor in game over and the summed
key direction is nonzero, the tick's horizontal displacement has magnitude
exactly `PLAYER_MOVEMENT_SPEED * dt` — the input is normalized, so holding
several keys is not faster — and the y coordinate is unchanged. -/
theorem movement_displacement_normalized (freeze_time_remaining dt : ℝ)
    (keyE keyD keyS keyF : Bool) (translation : ℝ × ℝ × ℝ)
    (hfreeze : freeze_time_remaining ≤ 0) (hdt : 0 ≤ dt)
    (hnet : movement_input keyE keyD keyS keyF ≠ (0, 0)) :
    Real.sqrt
      (((player_movement false freeze_time_remaining keyE keyD keyS keyF
          translation dt).1 - translation.1) ^ 2 +
       ((player_movement false freeze_time_remaining keyE keyD keyS keyF
          translation dt).2.2 - translation.2.2) ^ 2) =
      (PLAYER_MOVEMENT_SPEED : ℝ) * dt ∧
    (player_movement false freeze_time_remaining keyE keyD keyS keyF
      translation dt).2.1 = translation.2.1 := by
  have hvpos : 0 < (movement_input keyE keyD keyS keyF).1 ^ 2 +
      (movement_input keyE keyD keyS keyF).2 ^ 2 := by
    have hne : (movement_input keyE keyD keyS keyF).1 ≠ 0 ∨
        (movement_input keyE keyD keyS keyF).2 ≠ 0 := by
      by_contra hc
      push_neg at hc
      exact hnet (Prod.ext hc.1 hc.2)
    rcases hne with hne | hne
    · positivity
    · positivity
  have hguard : ¬(false = true ∨ freeze_time_remaining > 0) := by
    push_neg
    exact ⟨Bool.false_ne_true, hfreeze⟩
  have hC : (0 : ℝ) ≤ (PLAYER_MOVEMENT_SPEED : ℚ) := by
    norm_num [PLAYER_MOVEMENT_SPEED]
  have hlen2 : Real.sqrt ((movement_input keyE keyD keyS keyF).1 ^ 2 +
      (movement_input keyE keyD keyS keyF).2 ^ 2) ^ 2 =
      (movement_input keyE keyD keyS keyF).1 ^ 2 +
      (movement_input keyE keyD keyS keyF).2 ^ 2 := Real.sq_sqrt hvpos.le
  have hlenne : Real.sqrt ((movement_input keyE keyD keyS keyF).1 ^ 2 +
      (movement_input keyE keyD keyS keyF).2 ^ 2) ≠ 0 :=
    ne_of_gt (Real.sqrt_pos.mpr hvpos)
  unfold player_movement vec2_normalize
  rw [if_neg hguard, if_pos hvpos]
  refine ⟨?_, rfl⟩
  have hinner :
      (translation.1 + dt * (PLAYER_MOVEMENT_SPEED : ℝ) *
          ((movement_input keyE keyD keyS keyF).1 /
            Real.sqrt ((movement_input keyE keyD keyS keyF).1 ^ 2 +
              (movement_input keyE keyD keyS keyF).2 ^ 2)) - translation.1) ^ 2 +
      (translation.2.2 + dt * (PLAYER_MOVEMENT_SPEED : ℝ) *
          ((movement_input keyE keyD keyS keyF).2 /
            Real.sqrt ((movement_input keyE keyD keyS keyF).1 ^ 2 +
              (movement_input keyE keyD keyS keyF).2 ^ 2)) - translation.2.2) ^ 2 =
      ((PLAYER_MOVEMENT_SPEED : ℝ) * dt) ^ 2 := by
    field_simp
    ring
  rw [hinner]
  exact Real.sqrt_sq (mul_nonneg (by exact_mod_cast hC) hdt)

/-- C10 witness: pressing only E for a 1 s tick from translation (1, 2, 3)
moves the player by exactly `PLAYER_MOVEMENT_SPEED * 1` horizontally with y
unchanged. -/
theorem movement_displacement_normalized_witness :
    ((0 : ℝ) ≤ 0) ∧ ((0 : ℝ) ≤ 1) ∧
    (movement_input true false false false ≠ (0, 0)) ∧
    Real.sqrt
      (((player_movement false 0 true false false false
          ((1 : ℝ), (2 : ℝ), (3 : ℝ)) 1).1 - ((1 : ℝ), (2 : ℝ), (3 : ℝ)).1) ^ 2 +
       ((player_movement false 0 true false false false
          ((1 : ℝ), (2 : ℝ), (3 : ℝ)) 1).2.2 - ((1 : ℝ), (2 : ℝ), (3 : ℝ)).2.2) ^ 2) =
      (PLAYER_MOVEMENT_SPEED : ℝ) * 1 := by
  have hnet : movement_input true false false false ≠ (0, 0) := by
    simp only [movement_input, if_true, if_false, ne_eq, Prod.mk.injEq, not_and]
    norm_num
  exact ⟨le_refl 0, by norm_num, hnet,
    (movement_displacement_normalized 0 1 true false false false
      ((1 : ℝ), (2 : ℝ), (3 : ℝ)) (le_refl 0) (by norm_num) hnet).1⟩
